import Mathlib

/-!
Shallow embedding of the orchestration core of `living-presentation`
(src/src/hooks/useRealtimeAPI.ts, final version of the hook, lines 1504-2405),
together with proofs of the specification claims about it.

The hook's mutable refs and React state cells become fields of one record
`OrchState`; every handler becomes a pure state-transformer.  Network calls
are parameterized by an explicit outcome value (`GateOutcome`,
`FollowupResp`, `ImageOutcome`): the embedded function performs exactly the
state updates the source performs for that outcome.  `Date.now()` becomes an
explicit `now : Nat` argument, and the single `setTimeout` handle becomes
`timer : Option Nat` holding the absolute fire time (the source stores the
handle of a timeout scheduled `delay` ms in the future; we store `now + delay`).

History fields (`dispatchLog`, `gateCallLog`, `imageRequests`,
`exploratoryWrites`, `ideaLog`) are observation variables recording, in order,
the outbound calls / channel writes the source performs; they are appended
exactly where the source issues the corresponding call and are read by no
definition.
-/

namespace LivingPresentation

/-- `originalIdea` provenance triple of a slide (all fields reach the hook
from JSON, so each may be absent). -/
structure OriginalIdea where
  title : Option String
  content : Option String
  category : Option String
deriving DecidableEq, Repr

/-- SlideData as used by the hook: `id`, optional textual content, optional
provenance and a `source` tag. -/
structure SlideData where
  id : String
  headline : Option String
  subheadline : Option String
  bullets : Option (List String)
  visualDescription : Option String
  originalIdea : Option OriginalIdea
  source : Option String
deriving DecidableEq, Repr

/-- Entry of the Accepted-Slide Ledger, as built by `recordAcceptedSlide`
(useRealtimeAPI.ts:2123-2129). -/
structure SlideHistoryEntry where
  id : String
  headline : String
  visualDescription : String
  category : String
deriving DecidableEq, Repr

/-- Style reference entry (shape from the gemini route / `recordAcceptedSlide`
at useRealtimeAPI.ts:2135-2141). -/
structure StyleReference where
  headline : String
  visualDescription : String
  category : String
  slideNumber : Nat
deriving DecidableEq, Repr

/-- A presenter-typed prompt queued in the Pending Exploratory Context. -/
structure PresenterPrompt where
  prompt : String
  currentSlide : Option SlideData
deriving DecidableEq, Repr

/-- The Pending Exploratory Context (useRealtimeAPI.ts:1601-1609). -/
structure Ctx where
  acceptedSlides : List SlideData
  audienceQuestions : List SlideData
  presenterPrompts : List PresenterPrompt
deriving DecidableEq, Repr

/-- Structured slide content as exchanged with the gate / generation services.
The source declares the fields as required strings, but they arrive from JSON
unvalidated (only `headline` is ever checked), so every field is optional. -/
structure SlideContent where
  headline : Option String
  subheadline : Option String
  bullets : Option (List String)
  visualDescription : Option String
  category : Option String
  sourceTranscript : Option String
deriving DecidableEq, Repr

/-- An idea recorded in `priorIdeasRef` on gate acceptance
(useRealtimeAPI.ts:1687-1691). -/
structure PriorIdea where
  title : Option String
  content : Option String
  category : Option String
deriving DecidableEq, Repr

/-- Outcome of the `/api/slide-gate` call in `checkSlideGate`:
an HTTP response carrying the parsed body, a non-ok response, or a thrown
network error. -/
inductive GateOutcome where
  | ok (shouldCreateSlide : Bool) (slideContent : Option SlideContent)
      (reason : Option String)
  | httpError
  | netError
deriving DecidableEq, Repr

/-- Outcome of the `/api/exploratory-input` call in
`generateExploratorySlidesFromContext`: an ok response with the parsed
`followups` array, a non-ok response, or a thrown network error. -/
inductive FollowupResp where
  | ok (followups : List SlideContent)
  | httpError
  | netError
deriving DecidableEq, Repr

/-- Outcome of the `/api/gemini` call in `generateSlideImage` / `processIdea`:
an ok response whose body may or may not carry a `slide`, a non-ok response,
or a thrown network error. -/
inductive ImageOutcome where
  | ok (slide : Option SlideData)
  | httpError
  | netError
deriving DecidableEq, Repr

/-- JavaScript `a || b || ... || d` over possibly-absent strings: the first
present, non-empty entry wins, else the default. -/
def jsOrD : List (Option String) → String → String
  | [], d => d
  | o :: rest, d =>
    match o with
    | some s => if s = "" then jsOrD rest d else s
    | none => jsOrD rest d

/-- JavaScript `String.prototype.trim()`: strip leading and trailing
whitespace (structural recursion over the character list, so that concrete
instances evaluate inside the kernel). -/
def jsTrim (s : String) : String :=
  String.mk
    (((s.data.dropWhile Char.isWhitespace).reverse.dropWhile
        Char.isWhitespace).reverse)

/-- Presentation mode of the hook (`PresentationMode`). -/
inductive PresentationMode where
  | gated
  | streamOfConsciousness
deriving DecidableEq, Repr

/-- Modelled from the spec: one channel of the Channel Store.  The
implementation (`useSlideChannels`, imported at useRealtimeAPI.ts:1513) is not
under src/; §3 of the spec defines a Channel as an ordered queue of slides with
a read cursor. -/
structure Channel where
  queue : List SlideData
  cursor : Nat
deriving DecidableEq, Repr

/-- Modelled from the spec: a channel is created empty with cursor 0. -/
def emptyChannel : Channel := { queue := [], cursor := 0 }

/-- Modelled from the spec: capacity bound of the Exploratory channel
("oldest entries evicted beyond a fixed limit, e.g. 10", spec §3). -/
def EXPLORATORY_CHANNEL_CAP : Nat := 10

/-- The debounce interval constant `EXPLORATORY_INTERVAL_MS`
(useRealtimeAPI.ts:1610). -/
def EXPLORATORY_INTERVAL_MS : Nat := 20000

/-- The mutable state of the orchestration core: one field per ref / state
cell of the hook, plus the observation logs described in the file header.
`isProcessing` is omitted: every embedded operation sets it `true` and resets
it `false` in a `finally`, so its net effect in an atomic step is the
identity. -/
structure OrchState where
  exploratory : Channel
  audience : Channel
  slides : Channel
  transcript : String
  fullTranscript : String
  lastIdeaText : String
  lastGateCheck : String
  isGating : Bool
  gateStatus : String
  curatorStatus : String
  mode : PresentationMode
  priorIdeas : List PriorIdea
  acceptedSlides : List SlideHistoryEntry
  styleReferences : List StyleReference
  slideCounter : Nat
  generationPaused : Bool
  autoAcceptedSlide : Option SlideData
  pending : Ctx
  lastDispatch : Nat
  timer : Option Nat
  dispatchLog : List (Nat × Ctx)
  gateCallLog : List String
  imageRequests : List SlideContent
  exploratoryWrites : List SlideData
  ideaLog : List (String × String × String)
deriving DecidableEq, Repr

/-- The empty Pending Exploratory Context (useRealtimeAPI.ts:1605-1609,
1991-1995). -/
def emptyCtx : Ctx :=
  { acceptedSlides := [], audienceQuestions := [], presenterPrompts := [] }

/-- The initial state of the orchestration core: every ref at its declared
initial value (useRealtimeAPI.ts:1522-1610). -/
def initialState : OrchState where
  exploratory := emptyChannel
  audience := emptyChannel
  slides := emptyChannel
  transcript := ""
  fullTranscript := ""
  lastIdeaText := ""
  lastGateCheck := ""
  isGating := false
  gateStatus := ""
  curatorStatus := ""
  mode := PresentationMode.gated
  priorIdeas := []
  acceptedSlides := []
  styleReferences := []
  slideCounter := 0
  generationPaused := false
  autoAcceptedSlide := none
  pending := emptyCtx
  lastDispatch := 0
  timer := none
  dispatchLog := []
  gateCallLog := []
  imageRequests := []
  exploratoryWrites := []
  ideaLog := []

/-- `hasPendingContext` test of `triggerExploratoryGeneration`
(useRealtimeAPI.ts:1959-1962). -/
def hasPendingContext (c : Ctx) : Bool :=
  !c.acceptedSlides.isEmpty || !c.audienceQuestions.isEmpty ||
    !c.presenterPrompts.isEmpty

/-- Merge of a captured snapshot back into the current Pending Exploratory
Context on failed dispatch: each list of the captured context is pushed onto
the end of the corresponding current list (useRealtimeAPI.ts:2004-2012). -/
def mergeCtx (current captured : Ctx) : Ctx where
  acceptedSlides := current.acceptedSlides ++ captured.acceptedSlides
  audienceQuestions := current.audienceQuestions ++ captured.audienceQuestions
  presenterPrompts := current.presenterPrompts ++ captured.presenterPrompts

/-- Containment of Pending Exploratory Contexts: every payload of `a` occurs
in `b`. -/
def ctxLe (a b : Ctx) : Prop :=
  a.acceptedSlides ⊆ b.acceptedSlides ∧
    a.audienceQuestions ⊆ b.audienceQuestions ∧
    a.presenterPrompts ⊆ b.presenterPrompts

/-- Modelled from the spec: `addToExploratoryChannel` of the missing
`useSlideChannels` hook.  Spec §4.1: "Append to the Exploratory channel
enforces the capacity bound by dropping from the front."  The appended slide
is also recorded in the `exploratoryWrites` observation log. -/
def addToExploratoryChannel (slide : SlideData) (st : OrchState) : OrchState :=
  let q := st.exploratory.queue ++ [slide]
  let q := if EXPLORATORY_CHANNEL_CAP < q.length
    then q.drop (q.length - EXPLORATORY_CHANNEL_CAP) else q
  { st with exploratory := { st.exploratory with queue := q },
            exploratoryWrites := st.exploratoryWrites ++ [slide] }

/-- `generateSlideImage` (useRealtimeAPI.ts:1613-1654): skip when generation
is paused; otherwise increment the slide counter, issue the `/api/gemini`
request (recorded in `imageRequests`), and on an ok response carrying a slide
append it to the Exploratory channel.  The request body also carries the
current style references and the stamped slide number; body formatting does
not affect state and is not modelled. -/
def generateSlideImage (content : SlideContent) (imgO : ImageOutcome)
    (st : OrchState) : OrchState :=
  if st.generationPaused then st
  else
    let st := { st with slideCounter := st.slideCounter + 1,
                        imageRequests := st.imageRequests ++ [content] }
    match imgO with
    | ImageOutcome.ok (some slide) => addToExploratoryChannel slide st
    | _ => st

/-- Filter-and-cap of the follow-up list returned by the exploratory service:
keep entries whose `headline` is a string, then `.slice(0, 1)`
(useRealtimeAPI.ts:1884-1886). -/
def cleanedFollowups (fs : List SlideContent) : List SlideContent :=
  (fs.filter (fun f => f.headline.isSome)).take 1

/-- The synthetic fallback slide content constructed locally when the service
returns no usable follow-up (useRealtimeAPI.ts:1888-1912). -/
def fallbackFollowup (ctx : Ctx) : SlideContent where
  headline := some (jsOrD
    [(ctx.presenterPrompts.getLast?).map (fun p => p.prompt.take 60),
     (ctx.acceptedSlides.getLast?).bind SlideData.headline,
     (ctx.audienceQuestions.getLast?).bind SlideData.headline]
    "Next slide idea")
  subheadline := some (jsOrD
    [(ctx.presenterPrompts.getLast?).map PresenterPrompt.prompt]
    "Exploratory slide based on recent context")
  bullets := some
    ["Synthesized from presenter intent and recent context",
     "Generated as a fallback when no slide suggestions returned"]
  visualDescription := some (jsOrD
    [(ctx.presenterPrompts.getLast?).map PresenterPrompt.prompt]
    "A visual that extends the conversation using recent slides and audience signals")
  category := some (jsOrD
    [((ctx.acceptedSlides.getLast?).bind SlideData.originalIdea).bind
       OriginalIdea.category]
    "concept")
  sourceTranscript := none

/-- The `sourceTranscript` string attached to each generated follow-up
(useRealtimeAPI.ts:1914-1930). -/
def dispatchSourceTranscript (ctx : Ctx) : String :=
  let parts :=
    (if ctx.presenterPrompts.isEmpty then [] else
      ["Presenter prompt: \"" ++
        (jsOrD [(ctx.presenterPrompts.getLast?).map PresenterPrompt.prompt] "")
        ++ "\""]) ++
    (if ctx.acceptedSlides.isEmpty then [] else
      ["Follow-ups requested for " ++ toString ctx.acceptedSlides.length ++
        " accepted slide(s)"]) ++
    (if ctx.audienceQuestions.isEmpty then [] else
      ["Audience signals/questions x" ++ toString ctx.audienceQuestions.length])
  let joined := String.intercalate " | " parts
  if joined = "" then "Exploratory generation based on recent context" else joined

/-- `generateExploratorySlidesFromContext` (useRealtimeAPI.ts:1760-1951), the
Generation Pipeline Adapter.  It builds one outbound `/api/exploratory-input`
request from the captured context (the request body - combined prompt,
history/uploaded/audience context strings - is pure formatting fed to the
external call, influences no state transition, and is not modelled).  On a
non-ok response or a thrown error it returns `false` having changed nothing;
on an ok response it caps the usable follow-ups to one, substitutes the
locally synthesized fallback when none is usable, runs `generateSlideImage`
on each resulting content (at most one), and returns `true`. -/
def generateExploratorySlidesFromContext (ctx : Ctx) (resp : FollowupResp)
    (imgO : ImageOutcome) (st : OrchState) : OrchState × Bool :=
  match resp with
  | FollowupResp.httpError => (st, false)
  | FollowupResp.netError => (st, false)
  | FollowupResp.ok followups =>
    let cleaned := cleanedFollowups followups
    let cleaned := if cleaned.isEmpty then [fallbackFollowup ctx] else cleaned
    let src := dispatchSourceTranscript ctx
    let st := cleaned.foldl
      (fun st f =>
        generateSlideImage { f with sourceTranscript := some src } imgO st)
      st
    (st, true)

/-- Synchronous part of `triggerExploratoryGeneration`
(useRealtimeAPI.ts:1953-1995) up to the `await`: the paused guard, the
pending-context guard, the debounce branch that (re)schedules the single
timer for the remaining time of the interval, and on the dispatch path the
cancellation of the timer and the atomic swap of the Pending Exploratory
Context for an empty one.  Returns the captured snapshot when a dispatch
begins; the begun dispatch is recorded in `dispatchLog`. -/
def triggerCapture (forceNow : Bool) (now : Nat) (st : OrchState) :
    OrchState × Option Ctx :=
  if st.generationPaused && !forceNow then (st, none)
  else if !hasPendingContext st.pending then (st, none)
  else
    let elapsed := now - st.lastDispatch
    if elapsed < EXPLORATORY_INTERVAL_MS && !forceNow then
      ({ st with timer := some (now + (EXPLORATORY_INTERVAL_MS - elapsed)) },
       none)
    else
      ({ st with timer := none, pending := emptyCtx,
                 dispatchLog := st.dispatchLog ++ [(now, st.pending)] },
       some st.pending)

/-- Completion of a dispatch (useRealtimeAPI.ts:2000-2013): on success record
`lastDispatchTimestamp := now` (the `now` captured when the dispatch began);
on failure push the captured snapshot back onto whatever Pending Exploratory
Context exists at completion time. -/
def dispatchComplete (success : Bool) (captured : Ctx) (now : Nat)
    (st : OrchState) : OrchState :=
  if success then { st with lastDispatch := now }
  else { st with pending := mergeCtx st.pending captured }

/-- `triggerExploratoryGeneration` (useRealtimeAPI.ts:1953-2016) run to
completion as one atomic step: capture, dispatch through the Generation
Pipeline Adapter, then success/failure handling.  The recursive
`setTimeout` callback is not part of this function; the timer is data
(`OrchState.timer`) and its firing is modelled by calling this function
again with `forceNow = true`, exactly as the scheduled callback does
(useRealtimeAPI.ts:1974-1976). -/
def triggerExploratoryGeneration (forceNow : Bool) (now : Nat)
    (resp : FollowupResp) (imgO : ImageOutcome) (st : OrchState) : OrchState :=
  match triggerCapture forceNow now st with
  | (st1, none) => st1
  | (st1, some captured) =>
    let r := generateExploratorySlidesFromContext captured resp imgO st1
    dispatchComplete r.2 captured now r.1

/-- `generateSlideFollowups` (useRealtimeAPI.ts:2021-2032): unless the
slide's effective headline is blank, push the accepted slide into the
Pending Exploratory Context and request a debounced dispatch. -/
def generateSlideFollowups (slide : SlideData) (now : Nat)
    (resp : FollowupResp) (imgO : ImageOutcome) (st : OrchState) : OrchState :=
  let headline :=
    jsOrD [slide.headline, slide.originalIdea.bind OriginalIdea.title]
      "Untitled slide"
  if jsTrim headline = "" then st
  else
    let st := { st with pending :=
      { st.pending with
        acceptedSlides := st.pending.acceptedSlides ++ [slide] } }
    triggerExploratoryGeneration false now resp imgO st

/-- `generateAudienceFollowups` (useRealtimeAPI.ts:2035-2043): for a slide
whose source is "question", push it into the Pending Exploratory Context and
request a debounced dispatch. -/
def generateAudienceFollowups (questionSlide : SlideData) (now : Nat)
    (resp : FollowupResp) (imgO : ImageOutcome) (st : OrchState) : OrchState :=
  if questionSlide.source ≠ some "question" then st
  else
    let st := { st with pending :=
      { st.pending with
        audienceQuestions := st.pending.audienceQuestions ++ [questionSlide] } }
    triggerExploratoryGeneration false now resp imgO st

/-- `createExploratoryFromPrompt` (useRealtimeAPI.ts:2048-2065): record the
trimmed presenter prompt in the Pending Exploratory Context; while paused
return without dispatching, otherwise force an immediate dispatch. -/
def createExploratoryFromPrompt (prompt : String) (currentSlide : Option SlideData)
    (now : Nat) (resp : FollowupResp) (imgO : ImageOutcome)
    (st : OrchState) : OrchState :=
  let trimmed := jsTrim prompt
  if trimmed = "" then st
  else
    let st := { st with pending :=
      { st.pending with presenterPrompts :=
          st.pending.presenterPrompts ++
            [{ prompt := trimmed, currentSlide := currentSlide }] } }
    if st.generationPaused then st
    else triggerExploratoryGeneration true now resp imgO st

/-- `pauseGeneration` (useRealtimeAPI.ts:2067-2074): set the paused flag and
cancel any pending debounce timer. -/
def pauseGeneration (st : OrchState) : OrchState :=
  { st with generationPaused := true, timer := none }

/-- The TS history entry is passed where a `SlideData` is expected when
`resumeGeneration` folds the leftover transcript (useRealtimeAPI.ts:2088-2094);
structural typing makes the entry's `id`, `headline` and `visualDescription`
fields visible through the `SlideData` shape. -/
def histEntryToSlideData (e : SlideHistoryEntry) : SlideData where
  id := e.id
  headline := some e.headline
  subheadline := none
  bullets := none
  visualDescription := some e.visualDescription
  originalIdea := none
  source := none

/-- Transcript-folding step of `resumeGeneration` (useRealtimeAPI.ts:2082-2096):
if a non-blank transcript remained accumulated from before the pause and no
identical prompt is already pending, push it as one presenter-prompt-shaped
entry whose current slide is the latest accepted slide. -/
def resumeFoldTranscript (st : OrchState) : OrchState :=
  let transcriptText := jsTrim st.fullTranscript
  if transcriptText = "" then st
  else if st.pending.presenterPrompts.any
      (fun p => p.prompt = transcriptText) then st
  else
    let latestSlide := (st.acceptedSlides.getLast?).map histEntryToSlideData
    { st with pending :=
      { st.pending with presenterPrompts :=
          st.pending.presenterPrompts ++
            [{ prompt := transcriptText, currentSlide := latestSlide }] } }

/-- `resumeGeneration` (useRealtimeAPI.ts:2076-2110): no-op when not paused;
otherwise clear the paused flag, fold any leftover transcript into the
Pending Exploratory Context, and if any context is pending force one
immediate dispatch and clear the transcript state.  In the source the
forced dispatch is a `void` call whose synchronous half (the capture) runs
before the transcript clears and whose completion runs after; completion
touches only `pending`/`lastDispatch` and the clears touch only transcript
fields, so running the call to completion first is equivalent. -/
def resumeGeneration (now : Nat) (resp : FollowupResp) (imgO : ImageOutcome)
    (st : OrchState) : OrchState :=
  if !st.generationPaused then st
  else
    let st := resumeFoldTranscript { st with generationPaused := false }
    if hasPendingContext st.pending then
      let st := triggerExploratoryGeneration true now resp imgO st
      { st with fullTranscript := "", transcript := "", lastGateCheck := "" }
    else st

/-- `checkSlideGate` (useRealtimeAPI.ts:1657-1710), the Gate Decision Engine:
skip silently when paused, when a decision call is already in flight, or when
the transcript equals the last transcript evaluated; otherwise mark the call
in flight, remember the transcript, issue the `/api/slide-gate` request
(recorded in `gateCallLog`), and react to the outcome: on acceptance record
the idea in `priorIdeas`, clear the accumulated transcript and generate the
slide; on rejection surface the reason; on a thrown error surface
"Gate check failed"; always clear the in-flight flag. -/
def checkSlideGate (transcriptText : String) (gateO : GateOutcome)
    (imgO : ImageOutcome) (st : OrchState) : OrchState :=
  if st.generationPaused then st
  else if st.isGating then st
  else if transcriptText = st.lastGateCheck then st
  else
    let st := { st with isGating := true, lastGateCheck := transcriptText,
                        gateStatus := "Analyzing...",
                        gateCallLog := st.gateCallLog ++ [transcriptText] }
    let st :=
      match gateO with
      | GateOutcome.ok shouldCreateSlide slideContent reason =>
        match shouldCreateSlide, slideContent with
        | true, some c =>
          let st := { st with
            gateStatus := "Creating slide...",
            priorIdeas := st.priorIdeas ++
              [(⟨c.headline, c.sourceTranscript, c.category⟩ : PriorIdea)],
            fullTranscript := "" }
          let st := generateSlideImage c imgO st
          { st with gateStatus := "" }
        | _, _ =>
          { st with gateStatus := jsOrD [reason] "Waiting for more content..." }
      | GateOutcome.httpError => st
      | GateOutcome.netError => { st with gateStatus := "Gate check failed" }
    { st with isGating := false }

/-- `processIdea` (useRealtimeAPI.ts:1714-1757), stream-of-consciousness mode:
skip when paused; otherwise increment the slide counter, issue the
`/api/gemini` request (recorded in `ideaLog`), and on an ok response carrying
a slide auto-accept it. -/
def processIdea (title content category : String) (imgO : ImageOutcome)
    (st : OrchState) : OrchState :=
  if st.generationPaused then st
  else
    let st := { st with slideCounter := st.slideCounter + 1,
                        ideaLog := st.ideaLog ++ [(title, content, category)] }
    match imgO with
    | ImageOutcome.ok (some slide) => { st with autoAcceptedSlide := some slide }
    | _ => st

/-- Helper of `splitWords`: accumulate the current word (reversed) while
walking the character list. -/
def splitWordsChars : List Char → List Char → List String
  | [], cur => if cur = [] then [] else [String.mk cur.reverse]
  | c :: rest, cur =>
    if c.isWhitespace then
      if cur = [] then splitWordsChars rest []
      else String.mk cur.reverse :: splitWordsChars rest []
    else splitWordsChars rest (c :: cur)

/-- The words of a trimmed segment split at runs of whitespace, as
`text.split(/\s+/)` produces on trimmed input. -/
def splitWords (text : String) : List String :=
  splitWordsChars text.data []

/-- Concatenation of a finalized segment onto the accumulated transcript with
a single space separator (useRealtimeAPI.ts:2268-2270). -/
def accumulateSegment (st : OrchState) (text : String) : String :=
  if st.fullTranscript = "" then text else st.fullTranscript ++ " " ++ text

/-- The caller-side gate-trigger threshold: 20 characters while no slide has
been accepted, 30 afterwards (useRealtimeAPI.ts:2280). -/
def gateThreshold (st : OrchState) : Nat :=
  if st.acceptedSlides.isEmpty then 20 else 30

/-- The `Transcript` event handler registered by `start`
(useRealtimeAPI.ts:2251-2294): trim the segment and drop it when blank;
show it in the live transcript; on a finalized segment longer than 5
characters that does not repeat the previous finalized segment, either
accumulate it and (when not paused and the accumulated transcript exceeds
the caller-side threshold) check the gate (gated mode), or (stream mode)
generate a slide immediately from segments longer than 20 characters. -/
def onTranscriptEvent (raw : String) (isFinal speechFinal : Bool)
    (gateO : GateOutcome) (imgO : ImageOutcome) (st : OrchState) : OrchState :=
  let text := jsTrim raw
  if text = "" then st
  else
    let st := { st with transcript := text }
    if (isFinal || speechFinal) && decide (5 < text.length) then
      if text = st.lastIdeaText then st
      else
        let st := { st with lastIdeaText := text }
        match st.mode with
        | PresentationMode.gated =>
          let newFull := accumulateSegment st text
          let st := { st with fullTranscript := newFull }
          if st.generationPaused then st
          else
            let threshold := gateThreshold st
            if threshold < newFull.length then
              checkSlideGate newFull gateO imgO st
            else st
        | PresentationMode.streamOfConsciousness =>
          if 20 < text.length then
            let title := String.intercalate " " ((splitWords text).take 6)
            processIdea title text "concept" imgO st
          else st
    else st

/-- The compact ledger projection of an accepted slide
(useRealtimeAPI.ts:2123-2129). -/
def acceptedEntryOf (slide : SlideData) : SlideHistoryEntry :=
  { id := slide.id,
    headline := jsOrD [slide.headline, slide.originalIdea.bind OriginalIdea.title]
      "Untitled",
    visualDescription :=
      jsOrD [slide.visualDescription, slide.originalIdea.bind OriginalIdea.content]
        "",
    category := jsOrD [slide.originalIdea.bind OriginalIdea.category] "concept" }

/-- `recordAcceptedSlide` (useRealtimeAPI.ts:2121-2164): append the compact
projection of the accepted slide to the ledger; while fewer than 2 style
references exist, also append it as a style reference stamped with its ledger
position; then request exploratory follow-ups (through the scheduler) for the
question, if any, and for the accepted slide. -/
def recordAcceptedSlide (slide : SlideData) (now : Nat)
    (respQ respF : FollowupResp) (imgQ imgF : ImageOutcome)
    (st : OrchState) : OrchState :=
  let slideEntry := acceptedEntryOf slide
  let st := { st with acceptedSlides := st.acceptedSlides ++ [slideEntry] }
  let st :=
    if st.styleReferences.length < 2 then
      { st with styleReferences := st.styleReferences ++
          [{ headline := slideEntry.headline,
             visualDescription := slideEntry.visualDescription,
             category := slideEntry.category,
             slideNumber := st.acceptedSlides.length }] }
    else st
  let st :=
    if slide.source = some "question" then
      generateAudienceFollowups slide now respQ imgQ st
    else st
  generateSlideFollowups slide now respF imgF st

/-- `stop` (useRealtimeAPI.ts:2310-2353): cancel the debounce timer, discard
the Pending Exploratory Context, reset the last-dispatch timestamp, clear the
transcript state and statuses, reset all three channels (the channel reset is
modelled from the spec, `useSlideChannels` being absent from src/), clear the
ledger, the style references and the prior ideas, reset the slide counter and
clear the paused flag.  Transport teardown (recorder, media stream,
connection) touches no modelled field. -/
def stop (st : OrchState) : OrchState :=
  { st with
    timer := none
    pending := emptyCtx
    lastDispatch := 0
    transcript := ""
    fullTranscript := ""
    gateStatus := ""
    curatorStatus := ""
    exploratory := emptyChannel
    audience := emptyChannel
    slides := emptyChannel
    lastGateCheck := ""
    priorIdeas := []
    acceptedSlides := []
    styleReferences := []
    slideCounter := 0
    generationPaused := false }

/-- Effect of `start` (useRealtimeAPI.ts:2168-2308) on the orchestration
state: `start` fetches a transcription key, opens the transport and registers
its callbacks, mutating only connection/recording/error state; it writes none
of the modelled orchestration fields, so on `OrchState` it is the identity. -/
def startCore (st : OrchState) : OrchState := st

/-- The subsystems the lifecycle reset claim ranges over: debounce timer,
Pending Exploratory Context, last-dispatch timestamp, Transcript Accumulator,
the three channels, the Accepted-Slide Ledger, the Style References, the
slide counter and the paused flag. -/
structure CoreView where
  timer : Option Nat
  pending : Ctx
  lastDispatch : Nat
  fullTranscript : String
  exploratory : Channel
  audience : Channel
  slides : Channel
  acceptedSlides : List SlideHistoryEntry
  styleReferences : List StyleReference
  slideCounter : Nat
  generationPaused : Bool
deriving DecidableEq, Repr

/-- Projection of the orchestration state onto the subsystems of the
lifecycle reset claim. -/
def coreView (st : OrchState) : CoreView where
  timer := st.timer
  pending := st.pending
  lastDispatch := st.lastDispatch
  fullTranscript := st.fullTranscript
  exploratory := st.exploratory
  audience := st.audience
  slides := st.slides
  acceptedSlides := st.acceptedSlides
  styleReferences := st.styleReferences
  slideCounter := st.slideCounter
  generationPaused := st.generationPaused

/-- The style references determined by a ledger: the projections of its first
two entries, stamped with their 1-based ledger positions. -/
def styleProjection : List SlideHistoryEntry → List StyleReference
  | [] => []
  | [a] => [{ headline := a.headline, visualDescription := a.visualDescription,
              category := a.category, slideNumber := 1 }]
  | a :: b :: _ =>
    [{ headline := a.headline, visualDescription := a.visualDescription,
       category := a.category, slideNumber := 1 },
     { headline := b.headline, visualDescription := b.visualDescription,
       category := b.category, slideNumber := 2 }]

/-- A payload of the Exploratory Trigger Scheduler, tagged with the matching
list of the Pending Exploratory Context. -/
inductive TriggerPayload where
  | accepted (s : SlideData)
  | audience (s : SlideData)
  | presenter (p : String) (currentSlide : Option SlideData)
deriving DecidableEq, Repr

/-- Append one payload to the matching list of a Pending Exploratory
Context. -/
def pushPayload (pl : TriggerPayload) (c : Ctx) : Ctx :=
  match pl with
  | TriggerPayload.accepted s => { c with acceptedSlides := c.acceptedSlides ++ [s] }
  | TriggerPayload.audience s =>
    { c with audienceQuestions := c.audienceQuestions ++ [s] }
  | TriggerPayload.presenter p cur =>
    { c with presenterPrompts := c.presenterPrompts ++
        [{ prompt := p, currentSlide := cur }] }

/-- One `enqueue` of the scheduler on the debounced (`forceNow = false`)
path: append the payload to the Pending Exploratory Context and run
`triggerExploratoryGeneration false`, exactly as `generateSlideFollowups`
and `generateAudienceFollowups` do (useRealtimeAPI.ts:2028-2029, 2039-2040);
a presenter prompt is recorded the same way (useRealtimeAPI.ts:2053-2056). -/
def enqueueDebounced (pl : TriggerPayload) (now : Nat) (resp : FollowupResp)
    (imgO : ImageOutcome) (st : OrchState) : OrchState :=
  triggerExploratoryGeneration false now resp imgO
    { st with pending := pushPayload pl st.pending }

/-- The Pending Exploratory Context holding exactly the payloads of a list of
enqueue events, in order. -/
def ctxOfEvents (evs : List (TriggerPayload × Nat)) : Ctx :=
  evs.foldl (fun c e => pushPayload e.1 c) emptyCtx

/-- Fold a list of debounced enqueue events (payload and arrival time) over
the state; the network-outcome oracles are irrelevant on the debounced path
inside the interval but are threaded for faithfulness. -/
def runEnqueues (resp : FollowupResp) (imgO : ImageOutcome)
    (evs : List (TriggerPayload × Nat)) (st : OrchState) : OrchState :=
  evs.foldl (fun st e => enqueueDebounced e.1 e.2 resp imgO st) st

/-- Sample slide for concrete witnesses. -/
def sampleSlide : SlideData :=
  { id := "slide-1", headline := some "Launch plan", subheadline := none,
    bullets := none, visualDescription := some "a roadmap",
    originalIdea := none, source := none }

/-- Sample audience-question slide for concrete witnesses. -/
def sampleQuestion : SlideData :=
  { id := "q-1", headline := some "Q: what about cost?", subheadline := none,
    bullets := none, visualDescription := none,
    originalIdea := some { title := some "Q", content := some "what about cost?",
                           category := some "question" },
    source := some "question" }

/-- Concrete burst of three enqueue events within one debounce interval. -/
def c1Events : List (TriggerPayload × Nat) :=
  [(TriggerPayload.accepted sampleSlide, 500),
   (TriggerPayload.audience sampleQuestion, 1500),
   (TriggerPayload.presenter "explain the risks" none, 2000)]

/-- State after running the C1 witness burst from the initial state. -/
def c1St1 : OrchState :=
  runEnqueues (FollowupResp.ok []) ImageOutcome.httpError c1Events initialState

/-- A failed batch for the C2 witness. -/
def c2Captured : Ctx :=
  { acceptedSlides := [sampleSlide], audienceQuestions := [],
    presenterPrompts := [{ prompt := "explain the risks",
                           currentSlide := none }] }

/-- A pending context that accumulated during the failed call, for the C2
witness. -/
def c2During : OrchState :=
  { initialState with
      pending := { acceptedSlides := [], audienceQuestions := [sampleQuestion],
                   presenterPrompts := [] },
      lastDispatch := 7 }

/-- The paused state of the C4 scenario: `pause()` then presenter prompt
"explain the risks" recorded while paused. -/
def c4Paused : OrchState :=
  createExploratoryFromPrompt "explain the risks" none 100
    (FollowupResp.ok []) ImageOutcome.httpError
    (pauseGeneration initialState)

/-- An in-flight gate state for the C5 witness. -/
def c5InFlight : OrchState := { initialState with isGating := true }

/-- Witness state for C6 with a non-trivial accumulated transcript, ledger
and counter. -/
def c6State : OrchState :=
  { initialState with
      fullTranscript := "We are launching a new product line",
      priorIdeas := [{ title := some "Launch", content := some "t",
                       category := some "concept" }],
      acceptedSlides := [acceptedEntryOf sampleSlide],
      slideCounter := 3 }

/-- One presenter acceptance: the accepted slide, the time at which the
follow-up enqueues run, and the outcome oracles for the (up to two) scheduler
dispatches `recordAcceptedSlide` can provoke. -/
structure AcceptEvent where
  slide : SlideData
  now : Nat
  respQ : FollowupResp
  respF : FollowupResp
  imgQ : ImageOutcome
  imgF : ImageOutcome
deriving DecidableEq, Repr

/-- Fold a list of acceptances over the state. -/
def runAccepts (evs : List AcceptEvent) (st : OrchState) : OrchState :=
  evs.foldl
    (fun st e =>
      recordAcceptedSlide e.slide e.now e.respQ e.respF e.imgQ e.imgF st) st

/-- The acceptance sequence of the C8 witness: three accepted slides. -/
def c8Events : List AcceptEvent :=
  [{ slide := sampleSlide, now := 10, respQ := FollowupResp.ok [],
     respF := FollowupResp.ok [], imgQ := ImageOutcome.httpError,
     imgF := ImageOutcome.httpError },
   { slide := sampleQuestion, now := 20, respQ := FollowupResp.ok [],
     respF := FollowupResp.ok [], imgQ := ImageOutcome.httpError,
     imgF := ImageOutcome.httpError },
   { slide := sampleSlide, now := 30, respQ := FollowupResp.netError,
     respF := FollowupResp.netError, imgQ := ImageOutcome.netError,
     imgF := ImageOutcome.netError }]

/-- An unusable follow-up (its `headline` is not a string), for the C9
witness. -/
def c9Junk : SlideContent :=
  { headline := none, subheadline := some "x", bullets := none,
    visualDescription := none, category := none, sourceTranscript := none }

/-- Captured context for the C9 witness. -/
def c9Ctx : Ctx :=
  { acceptedSlides := [sampleSlide], audienceQuestions := [sampleQuestion],
    presenterPrompts := [{ prompt := "explain the risks",
                           currentSlide := none }] }

/-- A state whose live-transcript display shows an earlier phrase, for the
C10 counterexample. -/
def c10State : OrchState := { initialState with transcript := "hello" }

lemma generateSlideImage_shape (c : SlideContent) (i : ImageOutcome)
    (st : OrchState) :
    ∃ k req ex w, generateSlideImage c i st =
      { st with slideCounter := k, imageRequests := req,
                exploratory := ex, exploratoryWrites := w } := by
  unfold generateSlideImage addToExploratoryChannel
  split
  · exact ⟨st.slideCounter, st.imageRequests, st.exploratory,
      st.exploratoryWrites, rfl⟩
  · cases i with
    | ok s =>
      cases s with
      | none => exact ⟨_, _, _, _, rfl⟩
      | some sl => exact ⟨_, _, _, _, rfl⟩
    | httpError => exact ⟨_, _, _, _, rfl⟩
    | netError => exact ⟨_, _, _, _, rfl⟩

lemma foldlImage_shape (g : SlideContent → SlideContent) (i : ImageOutcome) :
    ∀ (l : List SlideContent) (st : OrchState), ∃ k req ex w,
      l.foldl (fun st f => generateSlideImage (g f) i st) st =
        { st with slideCounter := k, imageRequests := req,
                  exploratory := ex, exploratoryWrites := w }
  | [], st => ⟨st.slideCounter, st.imageRequests, st.exploratory,
      st.exploratoryWrites, rfl⟩
  | f :: rest, st => by
    simp only [List.foldl_cons]
    obtain ⟨k1, r1, e1, w1, h1⟩ := generateSlideImage_shape (g f) i st
    obtain ⟨k2, r2, e2, w2, h2⟩ :=
      foldlImage_shape g i rest (generateSlideImage (g f) i st)
    exact ⟨k2, r2, e2, w2, by rw [h2, h1]⟩

lemma generateExploratorySlidesFromContext_shape (ctx : Ctx)
    (r : FollowupResp) (i : ImageOutcome) (st : OrchState) :
    ∃ k req ex w, (generateExploratorySlidesFromContext ctx r i st).1 =
      { st with slideCounter := k, imageRequests := req,
                exploratory := ex, exploratoryWrites := w } := by
  cases r with
  | httpError => exact ⟨_, _, _, _, rfl⟩
  | netError => exact ⟨_, _, _, _, rfl⟩
  | ok fs =>
    unfold generateExploratorySlidesFromContext
    exact foldlImage_shape _ i _ st

lemma dispatchComplete_success (cap : Ctx) (now : Nat) (st : OrchState) :
    dispatchComplete true cap now st = { st with lastDispatch := now } := rfl

lemma dispatchComplete_failure (cap : Ctx) (now : Nat) (st : OrchState) :
    dispatchComplete false cap now st =
      { st with pending := mergeCtx st.pending cap } := rfl

lemma triggerCapture_skip_paused (f : Bool) (n : Nat) (st : OrchState)
    (h : (st.generationPaused && !f) = true) :
    triggerCapture f n st = (st, none) := by
  unfold triggerCapture
  simp [h]

lemma triggerCapture_skip_empty (f : Bool) (n : Nat) (st : OrchState)
    (h : hasPendingContext st.pending = false) :
    triggerCapture f n st = (st, none) := by
  unfold triggerCapture
  simp [h]

lemma triggerCapture_debounce (f : Bool) (n : Nat) (st : OrchState)
    (h1 : (st.generationPaused && !f) = false)
    (h2 : hasPendingContext st.pending = true)
    (h3 : (n - st.lastDispatch < EXPLORATORY_INTERVAL_MS ∧ f = false)) :
    triggerCapture f n st =
      ({ st with timer := some (n + (EXPLORATORY_INTERVAL_MS - (n - st.lastDispatch))) }, none) := by
  obtain ⟨hlt, hf⟩ := h3
  subst hf
  have hp : st.generationPaused = false := by simpa using h1
  unfold triggerCapture
  simp [hp, h2, hlt]

lemma triggerCapture_dispatch (f : Bool) (n : Nat) (st : OrchState)
    (h1 : (st.generationPaused && !f) = false)
    (h2 : hasPendingContext st.pending = true)
    (h3 : ((n - st.lastDispatch < EXPLORATORY_INTERVAL_MS) ∧ f = false) → False) :
    triggerCapture f n st =
      ({ st with timer := none, pending := emptyCtx,
                 dispatchLog := st.dispatchLog ++ [(n, st.pending)] },
       some st.pending) := by
  unfold triggerCapture
  cases f with
  | false =>
    have h4 : ¬ (n - st.lastDispatch < EXPLORATORY_INTERVAL_MS) := by
      intro hc
      exact h3 ⟨hc, rfl⟩
    have hp : st.generationPaused = false := by simpa using h1
    simp [hp, h2, h4]
  | true =>
    simp [h2]

lemma trigger_eq_of_capture_none (f : Bool) (n : Nat) (r : FollowupResp)
    (i : ImageOutcome) (st st' : OrchState)
    (h : triggerCapture f n st = (st', none)) :
    triggerExploratoryGeneration f n r i st = st' := by
  unfold triggerExploratoryGeneration
  rw [h]

lemma trigger_eq_of_capture_some (f : Bool) (n : Nat) (r : FollowupResp)
    (i : ImageOutcome) (st st' : OrchState) (cap : Ctx)
    (h : triggerCapture f n st = (st', some cap)) :
    triggerExploratoryGeneration f n r i st =
      dispatchComplete (generateExploratorySlidesFromContext cap r i st').2
        cap n (generateExploratorySlidesFromContext cap r i st').1 := by
  unfold triggerExploratoryGeneration
  rw [h]

lemma triggerExploratoryGeneration_shape (f : Bool) (n : Nat)
    (r : FollowupResp) (i : ImageOutcome) (st : OrchState) :
    ∃ pend ld tm dl k req ex w, triggerExploratoryGeneration f n r i st =
      { st with pending := pend, lastDispatch := ld, timer := tm,
                dispatchLog := dl, slideCounter := k, imageRequests := req,
                exploratory := ex, exploratoryWrites := w } := by
  by_cases hA : (st.generationPaused && !f) = true
  · rw [trigger_eq_of_capture_none f n r i st st
      (triggerCapture_skip_paused f n st hA)]
    exact ⟨st.pending, st.lastDispatch, st.timer, st.dispatchLog, _, _, _, _, rfl⟩
  by_cases hB : hasPendingContext st.pending = false
  · rw [trigger_eq_of_capture_none f n r i st st
      (triggerCapture_skip_empty f n st hB)]
    exact ⟨st.pending, st.lastDispatch, st.timer, st.dispatchLog, _, _, _, _, rfl⟩
  by_cases hC : (n - st.lastDispatch < EXPLORATORY_INTERVAL_MS ∧ f = false)
  · rw [trigger_eq_of_capture_none f n r i st _
      (triggerCapture_debounce f n st (by simpa using hA) (by simpa using hB) hC)]
    exact ⟨st.pending, st.lastDispatch, _, st.dispatchLog, _, _, _, _, rfl⟩
  · rw [trigger_eq_of_capture_some f n r i st _ st.pending
      (triggerCapture_dispatch f n st (by simpa using hA) (by simpa using hB) hC)]
    obtain ⟨k, req, ex, w, hAd⟩ := generateExploratorySlidesFromContext_shape
      st.pending r i
      { st with timer := none, pending := emptyCtx,
                dispatchLog := st.dispatchLog ++ [(n, st.pending)] }
    cases hS : (generateExploratorySlidesFromContext st.pending r i
        { st with timer := none, pending := emptyCtx,
                  dispatchLog := st.dispatchLog ++ [(n, st.pending)] }).2 with
    | true =>
      refine ⟨emptyCtx, n, none, st.dispatchLog ++ [(n, st.pending)],
        k, req, ex, w, ?_⟩
      rw [dispatchComplete_success, hAd]
    | false =>
      refine ⟨mergeCtx emptyCtx st.pending, st.lastDispatch, none,
        st.dispatchLog ++ [(n, st.pending)], k, req, ex, w, ?_⟩
      rw [dispatchComplete_failure, hAd]

lemma pushPayload_hasPending (pl : TriggerPayload) (c : Ctx) :
    hasPendingContext (pushPayload pl c) = true := by
  cases pl <;> simp [pushPayload, hasPendingContext]

lemma mergeCtx_empty_right (c : Ctx) : mergeCtx c emptyCtx = c := by
  simp [mergeCtx, emptyCtx]

lemma mergeCtx_empty_left (c : Ctx) : mergeCtx emptyCtx c = c := by
  simp [mergeCtx, emptyCtx]

lemma mergeCtx_assoc (a b c : Ctx) :
    mergeCtx (mergeCtx a b) c = mergeCtx a (mergeCtx b c) := by
  simp [mergeCtx, List.append_assoc]

lemma pushPayload_eq_merge (pl : TriggerPayload) (c : Ctx) :
    pushPayload pl c = mergeCtx c (pushPayload pl emptyCtx) := by
  cases pl <;> simp [pushPayload, mergeCtx, emptyCtx]

lemma foldl_push_merge (evs : List (TriggerPayload × Nat)) :
    ∀ c : Ctx, evs.foldl (fun a e => pushPayload e.1 a) c =
      mergeCtx c (ctxOfEvents evs) := by
  induction evs with
  | nil => intro c; simp [ctxOfEvents, mergeCtx_empty_right]
  | cons e evs ih =>
    intro c
    have hstep : ctxOfEvents (e :: evs) =
        mergeCtx (pushPayload e.1 emptyCtx) (ctxOfEvents evs) := by
      show (e :: evs).foldl (fun a e => pushPayload e.1 a) emptyCtx = _
      rw [List.foldl_cons, ih (pushPayload e.1 emptyCtx)]
    rw [List.foldl_cons, ih (pushPayload e.1 c), hstep,
      pushPayload_eq_merge e.1 c, mergeCtx_assoc]

lemma enqueueDebounced_inWindow (pl : TriggerPayload) (now : Nat)
    (r : FollowupResp) (i : ImageOutcome) (st : OrchState)
    (hp : st.generationPaused = false)
    (h1 : st.lastDispatch ≤ now)
    (h2 : now < st.lastDispatch + EXPLORATORY_INTERVAL_MS) :
    enqueueDebounced pl now r i st =
      { st with pending := pushPayload pl st.pending,
                timer := some (st.lastDispatch + EXPLORATORY_INTERVAL_MS) } := by
  unfold enqueueDebounced
  rw [trigger_eq_of_capture_none false now r i _ _
    (triggerCapture_debounce false now _ (by simp [hp])
      (pushPayload_hasPending pl st.pending) ⟨by simpa using Nat.sub_lt_left_of_lt_add h1 h2, rfl⟩)]
  have harith : now + (EXPLORATORY_INTERVAL_MS - (now - st.lastDispatch)) =
      st.lastDispatch + EXPLORATORY_INTERVAL_MS := by omega
  simp [harith]

lemma runEnqueues_inWindow (r : FollowupResp) (i : ImageOutcome)
    (evs : List (TriggerPayload × Nat)) :
    ∀ st : OrchState, st.generationPaused = false →
    (∀ e ∈ evs, st.lastDispatch ≤ e.2 ∧
      e.2 < st.lastDispatch + EXPLORATORY_INTERVAL_MS) →
    runEnqueues r i evs st =
      if evs.isEmpty then st
      else { st with
        pending := mergeCtx st.pending (ctxOfEvents evs),
        timer := some (st.lastDispatch + EXPLORATORY_INTERVAL_MS) } := by
  induction evs with
  | nil =>
    intro st hp hev
    simp [runEnqueues]
  | cons e evs ih =>
    intro st hp hev
    have he := hev e (List.mem_cons_self e evs)
    have hstep := enqueueDebounced_inWindow e.1 e.2 r i st hp he.1 he.2
    show List.foldl _ _ (e :: evs) = _
    rw [List.foldl_cons]
    show runEnqueues r i evs (enqueueDebounced e.1 e.2 r i st) = _
    rw [hstep]
    rw [ih _ (by simp [hp]) (by
      intro e' he'
      have := hev e' (List.mem_cons_of_mem e he')
      simpa using this)]
    cases hevs : evs.isEmpty
    · simp only [Bool.false_eq_true, if_false, List.isEmpty_cons,
        Bool.false_eq_true, if_false]
      have hpm := foldl_push_merge evs
      have hctx : mergeCtx (pushPayload e.1 st.pending) (ctxOfEvents evs) =
          mergeCtx st.pending (ctxOfEvents (e :: evs)) := by
        have hstep2 : ctxOfEvents (e :: evs) =
            mergeCtx (pushPayload e.1 emptyCtx) (ctxOfEvents evs) := by
          show (e :: evs).foldl (fun a e => pushPayload e.1 a) emptyCtx = _
          rw [List.foldl_cons, foldl_push_merge evs (pushPayload e.1 emptyCtx)]
        rw [hstep2, pushPayload_eq_merge e.1 st.pending, mergeCtx_assoc]
      simp [hctx]
    · have : evs = [] := by simpa using hevs
      subst this
      simp [runEnqueues, ctxOfEvents, pushPayload_eq_merge e.1 st.pending]

lemma hasPendingContext_iff (c : Ctx) : hasPendingContext c = true ↔
    (c.acceptedSlides ≠ [] ∨ c.audienceQuestions ≠ [] ∨
      c.presenterPrompts ≠ []) := by
  simp [hasPendingContext, List.isEmpty_iff, or_assoc]

lemma hasPending_merge_left (a b : Ctx)
    (h : hasPendingContext a = true) :
    hasPendingContext (mergeCtx a b) = true := by
  rw [hasPendingContext_iff] at h ⊢
  simp only [mergeCtx]
  rcases h with h | h | h
  · exact Or.inl (by simp [h])
  · exact Or.inr (Or.inl (by simp [h]))
  · exact Or.inr (Or.inr (by simp [h]))

lemma hasPending_merge_right (a b : Ctx)
    (h : hasPendingContext b = true) :
    hasPendingContext (mergeCtx a b) = true := by
  rw [hasPendingContext_iff] at h ⊢
  simp only [mergeCtx]
  rcases h with h | h | h
  · exact Or.inl (by simp [h])
  · exact Or.inr (Or.inl (by simp [h]))
  · exact Or.inr (Or.inr (by simp [h]))

lemma ctxOfEvents_hasPending (evs : List (TriggerPayload × Nat))
    (h : evs ≠ []) : hasPendingContext (ctxOfEvents evs) = true := by
  cases evs with
  | nil => exact absurd rfl h
  | cons e rest =>
    have hstep : ctxOfEvents (e :: rest) =
        mergeCtx (pushPayload e.1 emptyCtx) (ctxOfEvents rest) := by
      show (e :: rest).foldl (fun a e => pushPayload e.1 a) emptyCtx = _
      rw [List.foldl_cons, foldl_push_merge rest (pushPayload e.1 emptyCtx)]
    rw [hstep]
    exact hasPending_merge_left _ _ (pushPayload_hasPending e.1 emptyCtx)

lemma trigger_force_dispatchLog (now : Nat) (r : FollowupResp)
    (i : ImageOutcome) (st : OrchState)
    (hpend : hasPendingContext st.pending = true) :
    (triggerExploratoryGeneration true now r i st).dispatchLog =
      st.dispatchLog ++ [(now, st.pending)] := by
  rw [trigger_eq_of_capture_some true now r i st _ st.pending
    (triggerCapture_dispatch true now st (by simp) hpend
      (by rintro ⟨_, h⟩; cases h))]
  obtain ⟨k, req, ex, w, hAd⟩ := generateExploratorySlidesFromContext_shape
    st.pending r i
    { st with timer := none, pending := emptyCtx,
              dispatchLog := st.dispatchLog ++ [(now, st.pending)] }
  cases hS : (generateExploratorySlidesFromContext st.pending r i
      { st with timer := none, pending := emptyCtx,
                dispatchLog := st.dispatchLog ++ [(now, st.pending)] }).2
  · rw [dispatchComplete_failure, hAd]
  · rw [dispatchComplete_success, hAd]

lemma ctxLe_merge_right (a b : Ctx) : ctxLe b (mergeCtx a b) := by
  refine ⟨?_, ?_, ?_⟩ <;>
    · intro x hx
      simp [mergeCtx]
      exact Or.inr hx

/-- C1: Exploratory Trigger Scheduler coalescing.  For every burst of enqueue
calls arriving with `forceNow = false` while less than the 20-second interval
has elapsed since the last dispatch (and generation is not paused): no
dispatch happens during the burst; a single deferred dispatch is scheduled
for the remaining time of the interval (`lastDispatch + interval`), each
event replacing the previous timer; the pending context accumulates the union
of all enqueued payloads; when the timer fires, the scheduler captures
exactly that batch, atomically swapping in an empty Pending Exploratory
Context before the adapter call begins, and the full fired trigger performs
exactly one dispatch of the batch; a payload enqueued during the network call
lands in the fresh context and survives a successful completion. -/
theorem c1_scheduler_coalescing (r : FollowupResp) (i : ImageOutcome)
    (evs : List (TriggerPayload × Nat)) (st st1 : OrchState)
    (pl : TriggerPayload) (c : Ctx) (n' : Nat) (s : OrchState)
    (hp : st.generationPaused = false)
    (hne : evs ≠ [])
    (hwin : ∀ e ∈ evs, st.lastDispatch ≤ e.2 ∧
      e.2 < st.lastDispatch + EXPLORATORY_INTERVAL_MS)
    (hst1 : st1 = runEnqueues r i evs st) :
    st1.dispatchLog = st.dispatchLog ∧
    st1.timer = some (st.lastDispatch + EXPLORATORY_INTERVAL_MS) ∧
    st1.pending = mergeCtx st.pending (ctxOfEvents evs) ∧
    triggerCapture true (st.lastDispatch + EXPLORATORY_INTERVAL_MS) st1 =
      ({ st1 with timer := none, pending := emptyCtx,
                  dispatchLog := (st.dispatchLog ++
                    [(st.lastDispatch + EXPLORATORY_INTERVAL_MS, st1.pending)]) },
       some st1.pending) ∧
    (triggerExploratoryGeneration true
        (st.lastDispatch + EXPLORATORY_INTERVAL_MS) r i st1).dispatchLog =
      st.dispatchLog ++
        [(st.lastDispatch + EXPLORATORY_INTERVAL_MS, st1.pending)] ∧
    (dispatchComplete true c n'
        { s with pending := pushPayload pl s.pending }).pending =
      pushPayload pl s.pending := by
  have hrun := runEnqueues_inWindow r i evs st hp hwin
  have hie : evs.isEmpty = false := by
    cases evs with
    | nil => exact absurd rfl hne
    | cons e rest => rfl
  rw [hie] at hrun
  simp only [Bool.false_eq_true, if_false] at hrun
  subst hst1
  rw [hrun]
  have hpend1 : hasPendingContext
      (mergeCtx st.pending (ctxOfEvents evs)) = true :=
    hasPending_merge_right _ _ (ctxOfEvents_hasPending evs hne)
  refine ⟨rfl, rfl, rfl, ?_, ?_, rfl⟩
  · exact triggerCapture_dispatch true _ _ (by simp) hpend1
      (by rintro ⟨_, h⟩; cases h)
  · exact trigger_force_dispatchLog _ r i _ hpend1

/-- Witness for C1 at a concrete three-event burst from the initial state. -/
theorem c1_scheduler_coalescing_witness :
    c1St1.dispatchLog = initialState.dispatchLog ∧
    c1St1.timer =
      some (initialState.lastDispatch + EXPLORATORY_INTERVAL_MS) ∧
    c1St1.pending = mergeCtx initialState.pending (ctxOfEvents c1Events) ∧
    triggerCapture true
        (initialState.lastDispatch + EXPLORATORY_INTERVAL_MS) c1St1 =
      ({ c1St1 with timer := none, pending := emptyCtx,
                    dispatchLog := (initialState.dispatchLog ++
                      [(initialState.lastDispatch + EXPLORATORY_INTERVAL_MS,
                        c1St1.pending)]) },
       some c1St1.pending) ∧
    (triggerExploratoryGeneration true
        (initialState.lastDispatch + EXPLORATORY_INTERVAL_MS)
        (FollowupResp.ok []) ImageOutcome.httpError c1St1).dispatchLog =
      initialState.dispatchLog ++
        [(initialState.lastDispatch + EXPLORATORY_INTERVAL_MS,
          c1St1.pending)] ∧
    (dispatchComplete true emptyCtx 20000
        { initialState with
            pending := pushPayload (TriggerPayload.accepted sampleSlide)
              initialState.pending }).pending =
      pushPayload (TriggerPayload.accepted sampleSlide)
        initialState.pending :=
  c1_scheduler_coalescing (FollowupResp.ok []) ImageOutcome.httpError
    c1Events initialState c1St1 (TriggerPayload.accepted sampleSlide)
    emptyCtx 20000 initialState rfl (by decide) (by decide) rfl

/-- C2: Scheduler rollback / no-loss.  When a dispatch of a captured batch
fails, the scheduler pushes the captured snapshot back into whatever Pending
Exploratory Context exists at completion time, so every payload of the failed
batch is contained in the merged context, the events that arrived during the
failed call are preserved in front of it, and `lastDispatchTimestamp` does
not advance; consequently the next capture that dispatches (here: any forced
trigger) captures a superset of the failed batch. -/
theorem c2_rollback_no_loss (captured : Ctx) (now t : Nat) (st : OrchState)
    (hcap : hasPendingContext captured = true) :
    (dispatchComplete false captured now st).lastDispatch = st.lastDispatch ∧
    (dispatchComplete false captured now st).pending =
      mergeCtx st.pending captured ∧
    ctxLe captured (dispatchComplete false captured now st).pending ∧
    ctxLe st.pending (dispatchComplete false captured now st).pending ∧
    (triggerCapture true t (dispatchComplete false captured now st)).2 =
      some (mergeCtx st.pending captured) ∧
    ctxLe captured
      (mergeCtx st.pending captured) := by
  rw [dispatchComplete_failure]
  refine ⟨rfl, rfl, ctxLe_merge_right _ _, ?_, ?_, ctxLe_merge_right _ _⟩
  · refine ⟨?_, ?_, ?_⟩ <;>
      · intro x hx
        simp [mergeCtx]
        exact Or.inl hx
  · have hpend : hasPendingContext (mergeCtx st.pending captured) = true :=
      hasPending_merge_right _ _ hcap
    rw [triggerCapture_dispatch true t _ (by simp) hpend
      (by rintro ⟨_, h⟩; cases h)]

/-- Witness for C2 at a concrete failed batch merged into a concrete pending
context. -/
theorem c2_rollback_no_loss_witness :
    (dispatchComplete false c2Captured 30000 c2During).lastDispatch =
      c2During.lastDispatch ∧
    (dispatchComplete false c2Captured 30000 c2During).pending =
      mergeCtx c2During.pending c2Captured ∧
    ctxLe c2Captured
      (dispatchComplete false c2Captured 30000 c2During).pending ∧
    ctxLe c2During.pending
      (dispatchComplete false c2Captured 30000 c2During).pending ∧
    (triggerCapture true 31000
        (dispatchComplete false c2Captured 30000 c2During)).2 =
      some (mergeCtx c2During.pending c2Captured) ∧
    ctxLe c2Captured (mergeCtx c2During.pending c2Captured) :=
  c2_rollback_no_loss c2Captured 30000 31000 c2During (by decide)

/-- C3: Lifecycle reset.  `stop()` cancels the debounce timer, discards the
Pending Exploratory Context, resets the last-dispatch timestamp, clears the
Transcript Accumulator, resets all three channels, clears the Accepted-Slide
Ledger and the Style References, resets the slide counter to 0 and clears the
paused flag — and `stop()` followed by `start()` reproduces the initial state
of every one of those subsystems (`start` touches only transport/connection
state, none of these fields). -/
theorem c3_lifecycle_reset (st : OrchState) :
    (stop st).timer = none ∧
    (stop st).pending = emptyCtx ∧
    (stop st).lastDispatch = 0 ∧
    (stop st).fullTranscript = "" ∧
    (stop st).exploratory = emptyChannel ∧
    (stop st).audience = emptyChannel ∧
    (stop st).slides = emptyChannel ∧
    (stop st).acceptedSlides = [] ∧
    (stop st).styleReferences = [] ∧
    (stop st).slideCounter = 0 ∧
    (stop st).generationPaused = false ∧
    coreView (startCore (stop st)) = coreView initialState := by
  refine ⟨rfl, rfl, rfl, rfl, rfl, rfl, rfl, rfl, rfl, rfl, rfl, ?_⟩
  rfl

lemma resumeFoldTranscript_shape (st : OrchState) :
    ∃ pnd, resumeFoldTranscript st = { st with pending := pnd } := by
  unfold resumeFoldTranscript
  by_cases h1 : jsTrim st.fullTranscript = ""
  · exact ⟨st.pending, by simp [h1]⟩
  by_cases h2 : (st.pending.presenterPrompts.any
      fun p => decide (p.prompt = jsTrim st.fullTranscript)) = true
  · exact ⟨st.pending, by simp [h1, h2]⟩
  · refine ⟨{ st.pending with presenterPrompts :=
      st.pending.presenterPrompts ++
        [{ prompt := jsTrim st.fullTranscript,
           currentSlide :=
             Option.map histEntryToSlideData st.acceptedSlides.getLast? }] },
      ?_⟩
    simp [h1, h2]

/-- C4: Pause/resume protocol.  `pause()` sets the paused flag and cancels
any pending debounce timer.  While the flag is set, all three enqueue
operations (presenter prompt, accepted-slide follow-up, audience-question
follow-up) record their payload into the Pending Exploratory Context and
change nothing else — in particular no dispatch occurs.  `resume()` clears
the flag, folds a leftover accumulated transcript into the pending context
as one presenter-prompt-shaped entry (unless an identical prompt is already
pending — here expressed through `resumeFoldTranscript`, the embedded
folding step), and, the folded context being non-empty, performs exactly one
forced dispatch containing it. -/
theorem c4_pause_resume_protocol (p : String) (cur : Option SlideData)
    (q sl : SlideData) (now : Nat) (r : FollowupResp) (i : ImageOutcome)
    (st : OrchState)
    (hp : st.generationPaused = true)
    (hq : q.source = some "question")
    (hpr : jsTrim p ≠ "")
    (hhl : jsTrim (jsOrD [sl.headline, sl.originalIdea.bind OriginalIdea.title]
      "Untitled slide") ≠ "")
    (hfold : hasPendingContext
      (resumeFoldTranscript { st with generationPaused := false }).pending =
        true) :
    (pauseGeneration st).generationPaused = true ∧
    (pauseGeneration st).timer = none ∧
    createExploratoryFromPrompt p cur now r i st =
      { st with pending := { st.pending with presenterPrompts :=
          st.pending.presenterPrompts ++
            [{ prompt := jsTrim p, currentSlide := cur }] } } ∧
    generateSlideFollowups sl now r i st =
      { st with pending := { st.pending with acceptedSlides :=
          st.pending.acceptedSlides ++ [sl] } } ∧
    generateAudienceFollowups q now r i st =
      { st with pending := { st.pending with audienceQuestions :=
          st.pending.audienceQuestions ++ [q] } } ∧
    (resumeGeneration now r i st).generationPaused = false ∧
    (resumeGeneration now r i st).dispatchLog =
      st.dispatchLog ++
        [(now,
          (resumeFoldTranscript
            { st with generationPaused := false }).pending)] := by
  refine ⟨rfl, rfl, ?_, ?_, ?_, ?_, ?_⟩
  · unfold createExploratoryFromPrompt
    simp [hpr, hp]
  · unfold generateSlideFollowups
    rw [if_neg hhl]
    exact trigger_eq_of_capture_none false now r i _ _
      (triggerCapture_skip_paused false now _ (by simp [hp]))
  · unfold generateAudienceFollowups
    rw [if_neg (by simp [hq])]
    exact trigger_eq_of_capture_none false now r i _ _
      (triggerCapture_skip_paused false now _ (by simp [hp]))
  · unfold resumeGeneration
    rw [if_neg (by simp [hp])]
    rw [if_pos hfold]
    obtain ⟨pnd, hfs⟩ :=
      resumeFoldTranscript_shape { st with generationPaused := false }
    obtain ⟨pend, ld, tm, dl, k, req, ex, w, htr⟩ :=
      triggerExploratoryGeneration_shape true now r i
        (resumeFoldTranscript { st with generationPaused := false })
    rw [htr, hfs]
  · unfold resumeGeneration
    rw [if_neg (by simp [hp])]
    rw [if_pos hfold]
    have hlog := trigger_force_dispatchLog now r i
      (resumeFoldTranscript { st with generationPaused := false }) hfold
    obtain ⟨pnd, hfs⟩ :=
      resumeFoldTranscript_shape { st with generationPaused := false }
    show (triggerExploratoryGeneration true now r i
      (resumeFoldTranscript { st with generationPaused := false })).dispatchLog = _
    rw [hlog, hfs]

/-- Witness for C4 at the spec's scenario: prompt "explain the risks"
arriving while paused, then `resume()`. -/
theorem c4_pause_resume_protocol_witness :
    (pauseGeneration c4Paused).generationPaused = true ∧
    (pauseGeneration c4Paused).timer = none ∧
    createExploratoryFromPrompt "explain the risks" none 200
        (FollowupResp.ok []) ImageOutcome.httpError c4Paused =
      { c4Paused with pending := { c4Paused.pending with presenterPrompts :=
          c4Paused.pending.presenterPrompts ++
            [{ prompt := jsTrim "explain the risks", currentSlide := none }] } } ∧
    generateSlideFollowups sampleSlide 200
        (FollowupResp.ok []) ImageOutcome.httpError c4Paused =
      { c4Paused with pending := { c4Paused.pending with acceptedSlides :=
          c4Paused.pending.acceptedSlides ++ [sampleSlide] } } ∧
    generateAudienceFollowups sampleQuestion 200
        (FollowupResp.ok []) ImageOutcome.httpError c4Paused =
      { c4Paused with pending := { c4Paused.pending with audienceQuestions :=
          c4Paused.pending.audienceQuestions ++ [sampleQuestion] } } ∧
    (resumeGeneration 200 (FollowupResp.ok []) ImageOutcome.httpError
        c4Paused).generationPaused = false ∧
    (resumeGeneration 200 (FollowupResp.ok []) ImageOutcome.httpError
        c4Paused).dispatchLog =
      c4Paused.dispatchLog ++
        [(200,
          (resumeFoldTranscript
            { c4Paused with generationPaused := false }).pending)] :=
  c4_pause_resume_protocol "explain the risks" none sampleQuestion sampleSlide
    200 (FollowupResp.ok []) ImageOutcome.httpError c4Paused
    (by decide) (by decide) (by decide) (by decide) (by decide)

/-- C5: Gate Decision Engine re-entrancy and de-duplication guard.  When a
decision call is already in flight, or the transcript equals the last
transcript evaluated, `checkSlideGate` returns the state entirely unchanged —
in particular no request is recorded in `gateCallLog` — so at most one
evaluation is ever in flight and a concurrent request is dropped rather than
queued. -/
theorem c5_gate_guard (transcriptText : String) (g : GateOutcome)
    (i : ImageOutcome) (st : OrchState)
    (h : st.isGating = true ∨ transcriptText = st.lastGateCheck) :
    checkSlideGate transcriptText g i st = st := by
  unfold checkSlideGate
  rcases h with h | h <;> simp [h]

/-- Witness for C5: a call arriving while an evaluation is in flight is a
complete no-op. -/
theorem c5_gate_guard_witness :
    checkSlideGate "more narration" GateOutcome.netError ImageOutcome.netError
      c5InFlight = c5InFlight :=
  c5_gate_guard "more narration" GateOutcome.netError ImageOutcome.netError
    c5InFlight (Or.inl rfl)

lemma checkSlideGate_guards_pass (transcriptText : String) (g : GateOutcome)
    (i : ImageOutcome) (st : OrchState)
    (hpaused : st.generationPaused = false)
    (hflight : st.isGating = false)
    (hnew : transcriptText ≠ st.lastGateCheck) :
    checkSlideGate transcriptText g i st =
      { (match g with
         | GateOutcome.ok shouldCreateSlide slideContent reason =>
           match shouldCreateSlide, slideContent with
           | true, some c =>
             { generateSlideImage c i
                 { st with isGating := true, lastGateCheck := transcriptText,
                           gateStatus := "Creating slide...",
                           gateCallLog := st.gateCallLog ++ [transcriptText],
                           priorIdeas := (st.priorIdeas ++
                             [(⟨c.headline, c.sourceTranscript, c.category⟩ :
                               PriorIdea)]),
                           fullTranscript := "" } with gateStatus := "" }
           | _, _ =>
             { st with isGating := true, lastGateCheck := transcriptText,
                       gateCallLog := st.gateCallLog ++ [transcriptText],
                       gateStatus :=
                         jsOrD [reason] "Waiting for more content..." }
         | GateOutcome.httpError =>
           { st with isGating := true, lastGateCheck := transcriptText,
                     gateStatus := "Analyzing...",
                     gateCallLog := st.gateCallLog ++ [transcriptText] }
         | GateOutcome.netError =>
           { st with isGating := true, lastGateCheck := transcriptText,
                     gateStatus := "Gate check failed",
                     gateCallLog := st.gateCallLog ++ [transcriptText] })
        with isGating := false } := by
  unfold checkSlideGate
  simp only [hpaused, Bool.false_eq_true, if_false, hflight, hnew]

/-- C6: Gate Decision Engine error/rejection atomicity.  A thrown gate call
surfaces the generic "Gate check failed" status; a rejection surfaces the
service's reason string (or the default); a non-ok HTTP response leaves the
status from the call's start; and in every one of those cases the transcript
accumulator, the prior-ideas list, the accepted-slide ledger and the slide
counter are untouched.  The accumulator is cleared on acceptance. -/
theorem c6_gate_error_rejection_atomicity (transcriptText : String)
    (i : ImageOutcome) (st : OrchState) (sc : Option SlideContent) (b : Bool)
    (reason : Option String) (c : SlideContent)
    (hpaused : st.generationPaused = false)
    (hflight : st.isGating = false)
    (hnew : transcriptText ≠ st.lastGateCheck) :
    (checkSlideGate transcriptText GateOutcome.netError i st).gateStatus =
      "Gate check failed" ∧
    (checkSlideGate transcriptText GateOutcome.netError i st).fullTranscript =
      st.fullTranscript ∧
    (checkSlideGate transcriptText GateOutcome.netError i st).priorIdeas =
      st.priorIdeas ∧
    (checkSlideGate transcriptText GateOutcome.netError i st).acceptedSlides =
      st.acceptedSlides ∧
    (checkSlideGate transcriptText GateOutcome.netError i st).slideCounter =
      st.slideCounter ∧
    (checkSlideGate transcriptText (GateOutcome.ok false sc reason) i
        st).gateStatus = jsOrD [reason] "Waiting for more content..." ∧
    (checkSlideGate transcriptText (GateOutcome.ok false sc reason) i
        st).fullTranscript = st.fullTranscript ∧
    (checkSlideGate transcriptText (GateOutcome.ok false sc reason) i
        st).priorIdeas = st.priorIdeas ∧
    (checkSlideGate transcriptText (GateOutcome.ok false sc reason) i
        st).acceptedSlides = st.acceptedSlides ∧
    (checkSlideGate transcriptText (GateOutcome.ok false sc reason) i
        st).slideCounter = st.slideCounter ∧
    (checkSlideGate transcriptText (GateOutcome.ok b none reason) i
        st).gateStatus = jsOrD [reason] "Waiting for more content..." ∧
    (checkSlideGate transcriptText (GateOutcome.ok b none reason) i
        st).fullTranscript = st.fullTranscript ∧
    (checkSlideGate transcriptText (GateOutcome.ok b none reason) i
        st).priorIdeas = st.priorIdeas ∧
    (checkSlideGate transcriptText GateOutcome.httpError i
        st).fullTranscript = st.fullTranscript ∧
    (checkSlideGate transcriptText GateOutcome.httpError i
        st).priorIdeas = st.priorIdeas ∧
    (checkSlideGate transcriptText GateOutcome.httpError i
        st).acceptedSlides = st.acceptedSlides ∧
    (checkSlideGate transcriptText GateOutcome.httpError i
        st).slideCounter = st.slideCounter ∧
    (checkSlideGate transcriptText (GateOutcome.ok true (some c) reason) i
        st).fullTranscript = "" := by
  rw [checkSlideGate_guards_pass transcriptText GateOutcome.netError i st
    hpaused hflight hnew]
  rw [checkSlideGate_guards_pass transcriptText (GateOutcome.ok false sc reason)
    i st hpaused hflight hnew]
  rw [checkSlideGate_guards_pass transcriptText (GateOutcome.ok b none reason)
    i st hpaused hflight hnew]
  rw [checkSlideGate_guards_pass transcriptText GateOutcome.httpError i st
    hpaused hflight hnew]
  rw [checkSlideGate_guards_pass transcriptText
    (GateOutcome.ok true (some c) reason) i st hpaused hflight hnew]
  obtain ⟨k, req, ex, w, hImg⟩ := generateSlideImage_shape c i
    { st with isGating := true, lastGateCheck := transcriptText,
              gateStatus := "Creating slide...",
              gateCallLog := st.gateCallLog ++ [transcriptText],
              priorIdeas := (st.priorIdeas ++
                [(⟨c.headline, c.sourceTranscript, c.category⟩ : PriorIdea)]),
              fullTranscript := "" }
  cases b <;>
    simp [hImg]

/-- Witness for C6 at a concrete state, reason string and slide content. -/
theorem c6_gate_error_rejection_atomicity_witness :
    (checkSlideGate "new text" GateOutcome.netError ImageOutcome.netError
        c6State).gateStatus = "Gate check failed" ∧
    (checkSlideGate "new text" GateOutcome.netError ImageOutcome.netError
        c6State).fullTranscript = c6State.fullTranscript ∧
    (checkSlideGate "new text" GateOutcome.netError ImageOutcome.netError
        c6State).priorIdeas = c6State.priorIdeas ∧
    (checkSlideGate "new text" GateOutcome.netError ImageOutcome.netError
        c6State).acceptedSlides = c6State.acceptedSlides ∧
    (checkSlideGate "new text" GateOutcome.netError ImageOutcome.netError
        c6State).slideCounter = c6State.slideCounter ∧
    (checkSlideGate "new text"
        (GateOutcome.ok false none (some "too vague")) ImageOutcome.netError
        c6State).gateStatus =
      jsOrD [some "too vague"] "Waiting for more content..." ∧
    (checkSlideGate "new text"
        (GateOutcome.ok false none (some "too vague")) ImageOutcome.netError
        c6State).fullTranscript = c6State.fullTranscript ∧
    (checkSlideGate "new text"
        (GateOutcome.ok false none (some "too vague")) ImageOutcome.netError
        c6State).priorIdeas = c6State.priorIdeas ∧
    (checkSlideGate "new text"
        (GateOutcome.ok false none (some "too vague")) ImageOutcome.netError
        c6State).acceptedSlides = c6State.acceptedSlides ∧
    (checkSlideGate "new text"
        (GateOutcome.ok false none (some "too vague")) ImageOutcome.netError
        c6State).slideCounter = c6State.slideCounter ∧
    (checkSlideGate "new text"
        (GateOutcome.ok true none (some "too vague")) ImageOutcome.netError
        c6State).gateStatus =
      jsOrD [some "too vague"] "Waiting for more content..." ∧
    (checkSlideGate "new text"
        (GateOutcome.ok true none (some "too vague")) ImageOutcome.netError
        c6State).fullTranscript = c6State.fullTranscript ∧
    (checkSlideGate "new text"
        (GateOutcome.ok true none (some "too vague")) ImageOutcome.netError
        c6State).priorIdeas = c6State.priorIdeas ∧
    (checkSlideGate "new text" GateOutcome.httpError ImageOutcome.netError
        c6State).fullTranscript = c6State.fullTranscript ∧
    (checkSlideGate "new text" GateOutcome.httpError ImageOutcome.netError
        c6State).priorIdeas = c6State.priorIdeas ∧
    (checkSlideGate "new text" GateOutcome.httpError ImageOutcome.netError
        c6State).acceptedSlides = c6State.acceptedSlides ∧
    (checkSlideGate "new text" GateOutcome.httpError ImageOutcome.netError
        c6State).slideCounter = c6State.slideCounter ∧
    (checkSlideGate "new text"
        (GateOutcome.ok true
          (some { headline := some "Launch", subheadline := none,
                  bullets := none, visualDescription := some "v",
                  category := some "concept",
                  sourceTranscript := some "src" }) (some "too vague"))
        ImageOutcome.netError c6State).fullTranscript = "" :=
  c6_gate_error_rejection_atomicity "new text" ImageOutcome.netError c6State
    none true (some "too vague")
    { headline := some "Launch", subheadline := none, bullets := none,
      visualDescription := some "v", category := some "concept",
      sourceTranscript := some "src" }
    (by decide) (by decide) (by decide)

lemma checkSlideGate_gateCallLog (transcriptText : String) (g : GateOutcome)
    (i : ImageOutcome) (st : OrchState)
    (hpaused : st.generationPaused = false)
    (hflight : st.isGating = false)
    (hnew : transcriptText ≠ st.lastGateCheck) :
    (checkSlideGate transcriptText g i st).gateCallLog =
      st.gateCallLog ++ [transcriptText] := by
  rw [checkSlideGate_guards_pass transcriptText g i st hpaused hflight hnew]
  cases g with
  | ok should sc reason =>
    cases should with
    | false => cases sc <;> rfl
    | true =>
      cases sc with
      | none => rfl
      | some c =>
        obtain ⟨k, req, ex, w, hImg⟩ := generateSlideImage_shape c i
          { st with isGating := true, lastGateCheck := transcriptText,
                    gateStatus := "Creating slide...",
                    gateCallLog := st.gateCallLog ++ [transcriptText],
                    priorIdeas := (st.priorIdeas ++
                      [(⟨c.headline, c.sourceTranscript, c.category⟩ :
                        PriorIdea)]),
                    fullTranscript := "" }
        simp [hImg]
  | httpError => rfl
  | netError => rfl

/-- C7: Gate triggering thresholds.  In gated mode, a finalized segment
(trimmed, non-blank, longer than 5 characters, not repeating the previous
final segment, while generation is not paused) invokes the gate exactly when
the newly accumulated transcript's length strictly exceeds the caller-side
threshold — 20 characters while the accepted-slide ledger is empty, 30
afterwards: the gate-call log grows by the accumulated transcript in that
case and is unchanged otherwise. -/
theorem c7_gate_thresholds (text : String) (g : GateOutcome)
    (i : ImageOutcome) (st : OrchState)
    (hmode : st.mode = PresentationMode.gated)
    (hpause : st.generationPaused = false)
    (htrim : jsTrim text = text)
    (hne : text ≠ "")
    (hlen : 5 < text.length)
    (hdup : text ≠ st.lastIdeaText)
    (hflight : st.isGating = false)
    (hnewg : accumulateSegment st text ≠ st.lastGateCheck) :
    (onTranscriptEvent text true false g i st).gateCallLog =
      st.gateCallLog ++
        (if gateThreshold st < (accumulateSegment st text).length
         then [accumulateSegment st text] else []) := by
  obtain ⟨ex, au, sl2, tr, ft, lit, lgc, ig, gs, cs, md, pi, asl, sr, sc, gp,
    aas, pnd, ld, tm, dl, gcl, ir, ew, il⟩ := st
  subst hmode
  subst hpause
  subst hflight
  unfold onTranscriptEvent
  rw [htrim]
  rw [if_neg hne]
  simp only [Bool.true_or, Bool.true_and, decide_eq_true_eq]
  rw [if_pos hlen]
  rw [if_neg hdup]
  by_cases hthr : gateThreshold
      (OrchState.mk ex au sl2 tr ft lit lgc false gs cs
        PresentationMode.gated pi asl sr sc false aas pnd ld tm dl gcl ir ew
        il) <
    (accumulateSegment
      (OrchState.mk ex au sl2 tr ft lit lgc false gs cs
        PresentationMode.gated pi asl sr sc false aas pnd ld tm dl gcl ir ew
        il) text).length
  · rw [if_pos hthr]
    rw [if_neg (show ¬ (false = true) from by decide)]
    split
    next h => exact checkSlideGate_gateCallLog _ g i _ rfl rfl hnewg
    next h => exact absurd hthr h
  · rw [if_neg hthr]
    rw [if_neg (show ¬ (false = true) from by decide)]
    split
    next h => exact absurd h hthr
    next h => simp

/-- Witness for C7 at the spec's scenario: the 48-character transcript
"We are launching a new product line this quarter" arriving as the first
finalized segment with an empty accepted-slide ledger invokes the gate. -/
theorem c7_gate_thresholds_witness :
    (onTranscriptEvent "We are launching a new product line this quarter"
        true false (GateOutcome.ok false none none) ImageOutcome.netError
        initialState).gateCallLog =
      initialState.gateCallLog ++
        (if gateThreshold initialState <
            (accumulateSegment initialState
              "We are launching a new product line this quarter").length
         then [accumulateSegment initialState
                "We are launching a new product line this quarter"]
         else []) :=
  c7_gate_thresholds "We are launching a new product line this quarter"
    (GateOutcome.ok false none none) ImageOutcome.netError initialState
    (by decide) (by decide) (by decide) (by decide) (by decide) (by decide)
    (by decide) (by decide)

lemma generateSlideFollowups_ledger (slide : SlideData) (now : Nat)
    (r : FollowupResp) (i : ImageOutcome) (st : OrchState) :
    (generateSlideFollowups slide now r i st).styleReferences =
      st.styleReferences ∧
    (generateSlideFollowups slide now r i st).acceptedSlides =
      st.acceptedSlides := by
  unfold generateSlideFollowups
  dsimp only
  by_cases hh : jsTrim (jsOrD [slide.headline,
      slide.originalIdea.bind OriginalIdea.title] "Untitled slide") = ""
  · rw [if_pos hh]
    exact ⟨rfl, rfl⟩
  · rw [if_neg hh]
    obtain ⟨pend, ld2, tm2, dl2, k, req, ex2, w, h⟩ :=
      triggerExploratoryGeneration_shape false now r i
        { st with pending := { st.pending with
            acceptedSlides := st.pending.acceptedSlides ++ [slide] } }
    rw [h]
    exact ⟨rfl, rfl⟩

lemma generateAudienceFollowups_ledger (q : SlideData) (now : Nat)
    (r : FollowupResp) (i : ImageOutcome) (st : OrchState) :
    (generateAudienceFollowups q now r i st).styleReferences =
      st.styleReferences ∧
    (generateAudienceFollowups q now r i st).acceptedSlides =
      st.acceptedSlides := by
  unfold generateAudienceFollowups
  dsimp only
  by_cases hq : q.source ≠ some "question"
  · rw [if_pos hq]
    exact ⟨rfl, rfl⟩
  · rw [if_neg hq]
    obtain ⟨pend, ld2, tm2, dl2, k, req, ex2, w, h⟩ :=
      triggerExploratoryGeneration_shape false now r i
        { st with pending := { st.pending with
            audienceQuestions := st.pending.audienceQuestions ++ [q] } }
    rw [h]
    exact ⟨rfl, rfl⟩

lemma recordAcceptedSlide_ledger (slide : SlideData) (now : Nat)
    (respQ respF : FollowupResp) (imgQ imgF : ImageOutcome) (st : OrchState)
    (hinv : st.styleReferences = styleProjection st.acceptedSlides) :
    (recordAcceptedSlide slide now respQ respF imgQ imgF st).acceptedSlides =
      st.acceptedSlides ++ [acceptedEntryOf slide] ∧
    (recordAcceptedSlide slide now respQ respF imgQ imgF st).styleReferences =
      styleProjection (st.acceptedSlides ++ [acceptedEntryOf slide]) := by
  unfold recordAcceptedSlide
  have hA : ∀ s : OrchState,
      ((if slide.source = some "question"
        then generateAudienceFollowups slide now respQ imgQ s
        else s)).styleReferences = s.styleReferences ∧
      ((if slide.source = some "question"
        then generateAudienceFollowups slide now respQ imgQ s
        else s)).acceptedSlides = s.acceptedSlides := by
    intro s
    split
    · exact generateAudienceFollowups_ledger slide now respQ imgQ s
    · exact ⟨rfl, rfl⟩
  refine ⟨?_, ?_⟩
  · rw [(generateSlideFollowups_ledger slide now respF imgF _).2, (hA _).2]
    split
    · rfl
    · rfl
  · rw [(generateSlideFollowups_ledger slide now respF imgF _).1, (hA _).1]
    split
    next hlt =>
      rw [hinv] at hlt
      rcases hacc : st.acceptedSlides with _ | ⟨a, _ | ⟨b, rest⟩⟩ <;>
        simp [hacc, styleProjection, hinv] at hlt ⊢
    next hge =>
      rw [hinv] at hge
      rcases hacc : st.acceptedSlides with _ | ⟨a, _ | ⟨b, rest⟩⟩
      · rw [hacc] at hge
        exact absurd (by simp [styleProjection]) hge
      · rw [hacc] at hge
        exact absurd (by simp [styleProjection]) hge
      · rw [hinv, hacc]
        simp [styleProjection]

lemma runAccepts_ledger (evs : List AcceptEvent) :
    ∀ st : OrchState,
    st.styleReferences = styleProjection st.acceptedSlides →
    (runAccepts evs st).styleReferences =
      styleProjection (runAccepts evs st).acceptedSlides ∧
    (runAccepts evs st).acceptedSlides =
      st.acceptedSlides ++ evs.map (fun e => acceptedEntryOf e.slide) := by
  induction evs with
  | nil =>
    intro st h
    exact ⟨h, by simp [runAccepts]⟩
  | cons e evs ih =>
    intro st h
    have hrec := recordAcceptedSlide_ledger e.slide e.now e.respQ e.respF
      e.imgQ e.imgF st h
    have hinv1 : (recordAcceptedSlide e.slide e.now e.respQ e.respF e.imgQ
        e.imgF st).styleReferences =
        styleProjection (recordAcceptedSlide e.slide e.now e.respQ e.respF
          e.imgQ e.imgF st).acceptedSlides := by
      rw [hrec.2, hrec.1]
    have hrest := ih _ hinv1
    have hstep : runAccepts (e :: evs) st =
        runAccepts evs (recordAcceptedSlide e.slide e.now e.respQ e.respF
          e.imgQ e.imgF st) := rfl
    rw [hstep]
    refine ⟨hrest.1, ?_⟩
    rw [hrest.2, hrec.1]
    simp [List.append_assoc]

lemma styleProjection_length_le (l : List SlideHistoryEntry) :
    (styleProjection l).length ≤ 2 := by
  rcases l with _ | ⟨a, _ | ⟨b, r⟩⟩ <;> simp [styleProjection]

lemma styleProjection_append (l more : List SlideHistoryEntry)
    (h : 2 ≤ l.length) :
    styleProjection (l ++ more) = styleProjection l := by
  rcases l with _ | ⟨a, _ | ⟨b, r⟩⟩
  · simp at h
  · simp at h
  · simp [styleProjection]

/-- C8: Style Reference cap invariant.  Across any sequence of
`recordAcceptedSlide` calls from a session-initial state (empty ledger, empty
style references), the Style References always equal the projections of
exactly the first two ledger entries, stamped with their 1-based ledger
positions; hence they never exceed 2 entries, and once a ledger has at least
2 entries, accepting any further slides leaves the projection unchanged. -/
theorem c8_style_reference_cap (evs : List AcceptEvent) (st st' : OrchState)
    (l2 more : List SlideHistoryEntry)
    (h0led : st.acceptedSlides = [])
    (h0sty : st.styleReferences = [])
    (hst' : st' = runAccepts evs st)
    (hl2 : 2 ≤ l2.length) :
    st'.acceptedSlides = evs.map (fun e => acceptedEntryOf e.slide) ∧
    st'.styleReferences = styleProjection st'.acceptedSlides ∧
    st'.styleReferences =
      styleProjection (evs.map (fun e => acceptedEntryOf e.slide)) ∧
    st'.styleReferences.length ≤ 2 ∧
    styleProjection (l2 ++ more) = styleProjection l2 := by
  subst hst'
  have h0 : st.styleReferences = styleProjection st.acceptedSlides := by
    rw [h0led, h0sty]
    rfl
  obtain ⟨hS, hA⟩ := runAccepts_ledger evs st h0
  rw [h0led] at hA
  simp only [List.nil_append] at hA
  refine ⟨hA, hS, ?_, ?_, styleProjection_append l2 more hl2⟩
  · rw [hS, hA]
  · rw [hS]
    exact styleProjection_length_le _

/-- Witness for C8 at three concrete acceptances from the initial state. -/
theorem c8_style_reference_cap_witness :
    (runAccepts c8Events initialState).acceptedSlides =
      c8Events.map (fun e => acceptedEntryOf e.slide) ∧
    (runAccepts c8Events initialState).styleReferences =
      styleProjection (runAccepts c8Events initialState).acceptedSlides ∧
    (runAccepts c8Events initialState).styleReferences =
      styleProjection (c8Events.map (fun e => acceptedEntryOf e.slide)) ∧
    (runAccepts c8Events initialState).styleReferences.length ≤ 2 ∧
    styleProjection
        ([acceptedEntryOf sampleSlide, acceptedEntryOf sampleQuestion] ++
          [acceptedEntryOf sampleSlide]) =
      styleProjection
        [acceptedEntryOf sampleSlide, acceptedEntryOf sampleQuestion] :=
  c8_style_reference_cap c8Events initialState
    (runAccepts c8Events initialState)
    [acceptedEntryOf sampleSlide, acceptedEntryOf sampleQuestion]
    [acceptedEntryOf sampleSlide]
    rfl rfl rfl (by decide)

lemma generateSlideImage_imageRequests (c : SlideContent) (i : ImageOutcome)
    (st : OrchState) (hnp : st.generationPaused = false) :
    (generateSlideImage c i st).imageRequests = st.imageRequests ++ [c] := by
  unfold generateSlideImage addToExploratoryChannel
  rw [if_neg (by simp [hnp])]
  cases i with
  | ok s => cases s <;> simp
  | httpError => rfl
  | netError => rfl

lemma generateSlideImage_writes_le (c : SlideContent) (i : ImageOutcome)
    (st : OrchState) :
    (generateSlideImage c i st).exploratoryWrites.length ≤
      st.exploratoryWrites.length + 1 := by
  unfold generateSlideImage addToExploratoryChannel
  split
  · exact Nat.le_succ _
  · cases i with
    | ok s => cases s <;> simp
    | httpError => simp
    | netError => simp

lemma cleanedFollowups_length_le (fs : List SlideContent) :
    (cleanedFollowups fs).length ≤ 1 := by
  unfold cleanedFollowups
  simp [List.length_take_le]

/-- C9: Generation Pipeline Adapter per-dispatch output.  On a non-ok
response or a thrown error of the follow-up service the adapter returns
failure having changed nothing (never partially writes).  On an ok response
it succeeds; with generation unpaused it issues exactly one slide-generation
request per dispatch — when the service returned no usable follow-up, that
one request is the locally synthesized fallback content built from the
latest presenter prompt / accepted slide / audience question.  In every case
at most one Slide is written into the Exploratory channel per dispatch. -/
theorem c9_adapter_per_dispatch (ctx : Ctx) (fs : List SlideContent)
    (r : FollowupResp) (i : ImageOutcome) (st : OrchState)
    (hnp : st.generationPaused = false)
    (hunus : fs.filter (fun f => f.headline.isSome) = []) :
    generateExploratorySlidesFromContext ctx FollowupResp.httpError i st =
      (st, false) ∧
    generateExploratorySlidesFromContext ctx FollowupResp.netError i st =
      (st, false) ∧
    (generateExploratorySlidesFromContext ctx (FollowupResp.ok fs) i st).2 =
      true ∧
    ((generateExploratorySlidesFromContext ctx (FollowupResp.ok fs) i
        st).1).imageRequests =
      st.imageRequests ++
        [{ fallbackFollowup ctx with
             sourceTranscript := some (dispatchSourceTranscript ctx) }] ∧
    ((generateExploratorySlidesFromContext ctx r i
        st).1).exploratoryWrites.length ≤
      st.exploratoryWrites.length + 1 := by
  have hclean : cleanedFollowups fs = [] := by
    unfold cleanedFollowups
    rw [hunus]
    rfl
  refine ⟨rfl, rfl, ?_, ?_, ?_⟩
  · unfold generateExploratorySlidesFromContext
    rfl
  · unfold generateExploratorySlidesFromContext
    dsimp only
    rw [hclean]
    exact generateSlideImage_imageRequests _ i st hnp
  · cases r with
    | httpError => exact Nat.le_succ _
    | netError => exact Nat.le_succ _
    | ok gs =>
      unfold generateExploratorySlidesFromContext
      dsimp only
      rcases hcl : cleanedFollowups gs with _ | ⟨f, rest⟩
      · exact generateSlideImage_writes_le _ i st
      · have hrest : rest = [] := by
          have hlen := cleanedFollowups_length_le gs
          rw [hcl] at hlen
          simpa using hlen
        subst hrest
        exact generateSlideImage_writes_le
          { f with sourceTranscript := some (dispatchSourceTranscript ctx) }
          i st

/-- Witness for C9: a response carrying only an unusable follow-up triggers
the synthetic fallback, exactly one generation request, and at most one
channel write; error responses change nothing. -/
theorem c9_adapter_per_dispatch_witness :
    generateExploratorySlidesFromContext c9Ctx FollowupResp.httpError
      (ImageOutcome.ok (some sampleSlide)) initialState =
      (initialState, false) ∧
    generateExploratorySlidesFromContext c9Ctx FollowupResp.netError
      (ImageOutcome.ok (some sampleSlide)) initialState =
      (initialState, false) ∧
    (generateExploratorySlidesFromContext c9Ctx (FollowupResp.ok [c9Junk])
        (ImageOutcome.ok (some sampleSlide)) initialState).2 = true ∧
    ((generateExploratorySlidesFromContext c9Ctx (FollowupResp.ok [c9Junk])
        (ImageOutcome.ok (some sampleSlide)) initialState).1).imageRequests =
      initialState.imageRequests ++
        [{ fallbackFollowup c9Ctx with
             sourceTranscript := some (dispatchSourceTranscript c9Ctx) }] ∧
    ((generateExploratorySlidesFromContext c9Ctx
        (FollowupResp.ok [c9Junk]) (ImageOutcome.ok (some sampleSlide))
        initialState).1).exploratoryWrites.length ≤
      initialState.exploratoryWrites.length + 1 :=
  c9_adapter_per_dispatch c9Ctx [c9Junk] (FollowupResp.ok [c9Junk])
    (ImageOutcome.ok (some sampleSlide)) initialState (by decide) (by decide)

/-- Counterexample to C10 as stated: a finalized segment of whitespace only
has trimmed length 0 ≤ 5 and is discarded, but it is NOT shown in the
live-transcript display — the handler returns before the display update, so
the display keeps the previous phrase instead of the segment's trimmed
text. -/
theorem c10_short_segment_filter_counterexample :
    (jsTrim "   ").length ≤ 5 ∧
    onTranscriptEvent "   " true false GateOutcome.netError
      ImageOutcome.netError c10State = c10State ∧
    (onTranscriptEvent "   " true false GateOutcome.netError
      ImageOutcome.netError c10State).transcript ≠ jsTrim "   " := by
  refine ⟨by decide, by decide, by decide⟩

/-- C10 (amended): every finalized transcript segment whose trimmed text is
at most 5 characters is discarded entirely at the speech-input boundary — in
both modes nothing is appended to the transcript accumulator, the
duplicate-segment guard is not updated, and no gate evaluation or immediate
generation is triggered; when the trimmed text is non-empty it is still
shown in the live-transcript display, while a whitespace-only segment leaves
the display (and the whole state) unchanged. -/
theorem c10_short_segment_filter (raw : String) (isFinal speechFinal : Bool)
    (g : GateOutcome) (i : ImageOutcome) (st : OrchState)
    (hfin : (isFinal || speechFinal) = true)
    (hlen : (jsTrim raw).length ≤ 5) :
    onTranscriptEvent raw isFinal speechFinal g i st =
      (if jsTrim raw = "" then st
       else { st with transcript := jsTrim raw }) := by
  unfold onTranscriptEvent
  by_cases hempty : jsTrim raw = ""
  · rw [if_pos hempty, if_pos hempty]
  · rw [if_neg hempty, if_neg hempty]
    rw [hfin]
    rw [if_neg (by simpa using Nat.not_lt.mpr hlen)]

/-- Witness for C10 (amended): the 5-character segment "Hi ya" is shown in
the display and otherwise discarded. -/
theorem c10_short_segment_filter_witness :
    onTranscriptEvent "Hi ya" true false (GateOutcome.ok true none none)
        ImageOutcome.netError c10State =
      (if jsTrim "Hi ya" = "" then c10State
       else { c10State with transcript := jsTrim "Hi ya" }) :=
  c10_short_segment_filter "Hi ya" true false (GateOutcome.ok true none none)
    ImageOutcome.netError c10State (by decide) (by decide)

end LivingPresentation
